import Mathlib

/-!
Shallow embedding of the pattern-detection core of `stock_app.py`
(Taiwan-stock VCP scanner).

Series are lists of exact rationals: the most recent bar is the LAST
element of each list, matching the chronological order of the pandas
DataFrame rows in the source.  Pandas/NumPy NaN propagation is modelled
with `Option ℚ`: a rolling mean whose window exceeds the series length is
`none`, and every strict comparison against `none` is `false`, exactly as
every IEEE comparison with NaN is False in Python.
-/

set_option maxRecDepth 100000
set_option allowUnsafeReducibility true
attribute [local reducible] Rat.add Rat.mul Rat.inv Rat.sub Rat.div


namespace StockApp

/-- Python substring membership (`pat in s`) on char lists: does `pat`
occur at the head of the second list? -/
def leadMatch : List Char → List Char → Bool
  | [], _ => true
  | _ :: _, [] => false
  | a :: as, b :: bs => a == b && leadMatch as bs

/-- Contiguous-substring search over char lists. -/
def subSeq (pat : List Char) : List Char → Bool
  | [] => leadMatch pat []
  | c :: cs => leadMatch pat (c :: cs) || subSeq pat cs

/-- Python `pat in s` for strings, used by the mode dispatch of the scan
loop and of `calculate_trade_setup`. -/
def strContains (s pat : String) : Bool := subSeq pat.toList s.toList

/-- Python slice `df.iloc[-w:]` — the last `w` elements (the whole
list when `w` exceeds the length, matching slice clamping). -/
def lastN {α : Type} (w : Nat) (l : List α) : List α := l.drop (l.length - w)

/-- Mean of a window, `Series.mean()`. -/
def mean (l : List ℚ) : ℚ := l.sum / (l.length : ℚ)

/-- Minimum of a window, `Series.min()` (0 on `[]`, a case the guarded
call sites never reach). -/
def listMin : List ℚ → ℚ
  | [] => 0
  | h :: t => t.foldl min h

/-- Maximum of a window, `Series.max()`. -/
def listMax : List ℚ → ℚ
  | [] => 0
  | h :: t => t.foldl max h

/-- Rolling mean at the last bar, `rolling(w).mean().iloc[-1]`: NaN
(`none`) while fewer than `w` bars exist, else the mean of the
trailing `w` bars. -/
def rollingLast (w : Nat) (l : List ℚ) : Option ℚ :=
  if l.length < w then none else some (mean (lastN w l))

/-- A float `>` comparison where either side may be NaN (`none`):
NaN comparisons are False in Python. -/
def ogt : Option ℚ → Option ℚ → Bool
  | some x, some y => decide (y < x)
  | _, _ => false

/-- The per-ticker daily table: lower-cased column names, the close
series and the resolved volume series. -/
structure Df where
  cols : List String
  closes : List ℚ
  vols : List ℚ
deriving DecidableEq

/-- Resolution of the volume column, `get_volume_column`: the first
candidate name present among the columns. -/
def get_volume_column (cols : List String) : Option String :=
  ["volume", "trading_volume", "成交股數", "成交張數"].find? (fun c => cols.contains c)

/-- The 20-day volume baseline
`avg_vol_20 = df[vol_col].iloc[-21:-1].mean()` — the 20 bars ending
the day before the current one. -/
def avgVol20 (vols : List ℚ) : ℚ := mean ((lastN 21 vols).dropLast)

/-- The volume ratio of the scan loop,
`vol_ratio = curr_vol / avg_vol_20 if avg_vol_20 > 0 else 0`. -/
def volRel (vols : List ℚ) : ℚ :=
  if 0 < avgVol20 vols then vols.getLastD 0 / avgVol20 vols else 0

/-- The sidebar parameters, constant across one scan run. -/
structure Params where
  consolidation_days : Nat
  price_tightness : ℚ
  vol_factor : ℚ
  pe_limit : ℚ
deriving DecidableEq

/-- The defaults set at the top of the parameter block. -/
def defaultParams : Params := ⟨10, 8 / 100, 2, 20⟩

/-- The `if "VCP" in strategy_mode` branch of the scan loop.  The
amplitude test carries the float semantics of
`(max - min) / min <= tight`: with `min = 0` the division yields inf or
NaN and the comparison is False, hence the explicit guard. -/
def vcpBranch (p : Params) (df : Df) : Bool :=
  let price := df.closes.getLastD 0
  let ma200 := rollingLast 200 df.closes
  let recent := lastN p.consolidation_days df.closes
  let minR := listMin recent
  let maxR := listMax recent
  let ampOK : Bool :=
    if minR = 0 then false else decide ((maxR - minR) / minR ≤ p.price_tightness)
  let curr := df.vols.getLastD 0
  let dry : Bool :=
    decide (mean (lastN p.consolidation_days df.vols) < mean (lastN 60 df.vols)) ||
      decide (curr < avgVol20 df.vols)
  ogt (some price) ma200 && ampOK && dry

/-- The `elif "四線" in strategy_mode` branch: volume surge plus close
above the 5/10/20/60-bar means. -/
def fourLineBranch (df : Df) : Bool :=
  let price := df.closes.getLastD 0
  decide ((2 : ℚ) ≤ volRel df.vols) &&
    ogt (some price) (rollingLast 5 df.closes) &&
    ogt (some price) (rollingLast 10 df.closes) &&
    ogt (some price) (rollingLast 20 df.closes) &&
    ogt (some price) (rollingLast 60 df.closes)

/-- One row of the financial-statements table. -/
structure FinRow where
  ftype : String
  fdate : Nat
  value : ℚ
deriving DecidableEq

/-- The EPS rows the valuation branch sums:
`df_fin[type contains BasicEarningsPerShare].sort_values(date).tail(4)`. -/
def epsRows (rows : List FinRow) : List FinRow :=
  lastN 4 (List.insertionSort (fun a b => a.fdate ≤ b.fdate)
    (rows.filter (fun r => strContains r.ftype "BasicEarningsPerShare")))

/-- The `elif "價值" in strategy_mode` branch; the surrounding
`try/except: pass` turns any fundamentals-fetch failure into no match. -/
def valuationBranch (pe_limit price : ℚ) (fin : Except String (List FinRow)) : Bool :=
  match fin with
  | .error _ => false
  | .ok rows =>
    let ttm := ((epsRows rows).map FinRow.value).sum
    if 0 < ttm then decide (price / ttm < pe_limit) else false

/-- The `elif "均線" in strategy_mode` branch: close above the 50-bar
mean which is above the 200-bar mean. -/
def maStackBranch (df : Df) : Bool :=
  let price := df.closes.getLastD 0
  ogt (some price) (rollingLast 50 df.closes) &&
    ogt (rollingLast 50 df.closes) (rollingLast 200 df.closes)

/-- The `elif "量能" in strategy_mode` branch. -/
def volumeBranch (p : Params) (df : Df) : Bool :=
  decide (p.vol_factor ≤ volRel df.vols)

/-- The scan loop dispatch: the same `elif` chain of substring tests on
the mode label as the source.  Note the label of the bullish-stack mode
contains "VCP", so it is routed to the VCP branch. -/
def evalStrategy (mode : String) (p : Params) (df : Df)
    (fin : Except String (List FinRow)) : Bool :=
  if strContains mode "VCP" then vcpBranch p df
  else if strContains mode "四線" then fourLineBranch df
  else if strContains mode "價值" then valuationBranch p.pe_limit (df.closes.getLastD 0) fin
  else if strContains mode "均線" then maStackBranch df
  else if strContains mode "量能" then volumeBranch p df
  else false

/-- The `risk_reward` label: either the computed 2.0 label carrying the
rounded risk, or the "N/A" fallback. -/
inductive RRLabel where
  | computed (risk : ℚ)
  | na
deriving DecidableEq

/-- The dictionary returned by `calculate_trade_setup`.  `buy` and
`stop` are `Option` because the 5- and 20-bar means are NaN on short
series. -/
structure TradeSetup where
  buy : Option ℚ
  stop : Option ℚ
  take_profit : ℚ
  rr : RRLabel
deriving DecidableEq

/-- The tail of `calculate_trade_setup`: `risk = buy - stop`;
`if risk > 0` set the 2:1 target, else fall back to `price * 1.1` — a
NaN risk (either side `none`) also falls into the else branch. -/
def finishSetup (price : ℚ) (buy stop : Option ℚ) : TradeSetup :=
  match buy, stop with
  | some b, some s =>
    if 0 < b - s then ⟨some b, some s, b + (b - s) * 2, RRLabel.computed (b - s)⟩
    else ⟨some b, some s, price * (11 / 10), RRLabel.na⟩
  | b, s => ⟨b, s, price * (11 / 10), RRLabel.na⟩

/-- The trade plan, `calculate_trade_setup(df, strategy_mode, sid)`
(the unused `sid` argument is dropped). -/
def calculate_trade_setup (mode : String) (df : Df) : TradeSetup :=
  let price := df.closes.getLastD 0
  let low_recent := listMin (lastN 10 df.closes)
  let ma5 := rollingLast 5 df.closes
  let ma20 := rollingLast 20 df.closes
  if strContains mode "VCP" then
    finishSetup price (some price) (some (low_recent * (98 / 100)))
  else if strContains mode "均線" || strContains mode "四線" then
    finishSetup price ma5 (ma20.map (fun m => m * (98 / 100)))
  else
    finishSetup price (some price) (some (price * (93 / 100)))

/-- One ticker of a scan run: its id, the daily-bars fetch outcome and
the fundamentals fetch outcome (used only by the valuation mode). -/
structure Ticker where
  sid : String
  fetch : Except String Df
  fin : Except String (List FinRow)

/-- The per-run accumulation: matched ticker ids (`hits`) and the debug
log (`errors`, the `error_msgs` list of the source). -/
structure ScanState where
  hits : List String
  errors : List String
deriving DecidableEq

/-- One iteration of the scan loop: a raised fetch error is appended to
the debug log as `sid: msg`; an empty/short table or a missing volume
column is skipped with `continue` (no log entry); otherwise the selected
strategy is evaluated and a match appends the ticker. -/
def processTicker (mode : String) (p : Params) (st : ScanState) (t : Ticker) : ScanState :=
  match t.fetch with
  | .error e => ⟨st.hits, st.errors ++ [t.sid ++ ": " ++ e]⟩
  | .ok df =>
    if df.closes.length < 120 then st
    else
      match get_volume_column (df.cols.map String.toLower) with
      | none => st
      | some _ =>
        if evalStrategy mode p df t.fin then ⟨st.hits ++ [t.sid], st.errors⟩ else st

/-- The whole scan run over the ticker list. -/
def scanRun (mode : String) (p : Params) (ts : List Ticker) : ScanState :=
  ts.foldl (processTicker mode p) ⟨[], []⟩

/-- The five radio labels of the sidebar. -/
def vcpMode : String := "🔍 VCP 準突破 (量縮價穩)"

def fourLineMode : String := "🚀 四線合一+爆量 (強勢起漲)"

def valueMode : String := "💰 價值低估 (PE < 20)"

def maMode : String := "📈 均線多頭 (VCP 趨勢)"

def volMode : String := "🔥 量能爆發 (短線動能)"

/-- The scipy primitive `argrelextrema(data, cmp, order)` in clip
mode — index `i` is kept when for every shift `1..order` the
comparison holds against both neighbours, indices clipped to the ends. -/
def relExtrema (cmp : ℚ → ℚ → Bool) (ord : Nat) (p : List ℚ) : List Nat :=
  (List.range p.length).filter (fun i =>
    (List.range ord).all (fun s =>
      cmp (p.getD i 0) (p.getD (min (i + (s + 1)) (p.length - 1)) 0) &&
        cmp (p.getD i 0) (p.getD (i - (s + 1)) 0)))

/-- The extrema finder `find_vcp_points(df)`: order-5 strict local
maxima and minima of the close series. -/
def find_vcp_points (closes : List ℚ) : List Nat × List Nat :=
  (relExtrema (fun a b => decide (b < a)) 5 closes,
   relExtrema (fun a b => decide (a < b)) 5 closes)

/-- Spec-side formalisation of the volume-ratio baseline: the mean of
the 20 trading days ending the day before the current one, i.e. the
last 20 entries of the series with its final day removed. -/
def specBase (vols : List ℚ) : ℚ := mean (lastN 20 vols.dropLast)

/-- Spec-side formalisation of the contraction-match condition: close
strictly above the (defined) 200-bar mean, window amplitude at most the
tightness bound, and the volume dry-up disjunction. -/
def specVcpCond (p : Params) (df : Df) : Prop :=
  (200 ≤ df.closes.length ∧ mean (lastN 200 df.closes) < df.closes.getLastD 0) ∧
  (listMax (lastN p.consolidation_days df.closes) -
      listMin (lastN p.consolidation_days df.closes)) /
      listMin (lastN p.consolidation_days df.closes) ≤ p.price_tightness ∧
  (mean (lastN p.consolidation_days df.vols) < mean (lastN 60 df.vols) ∨
    df.vols.getLastD 0 < avgVol20 df.vols)

/-- Spec-side sum of ALL available quarterly EPS values of a
fundamentals table. -/
def epsAvailableSum (rows : List FinRow) : ℚ :=
  ((rows.filter (fun r => strContains r.ftype "BasicEarningsPerShare")).map FinRow.value).sum

/-- A 50-bar series: shorter than the 120-bar minimum. -/
def dfShort : Df := ⟨["volume"], List.replicate 50 (1 : ℚ), List.replicate 50 (1 : ℚ)⟩

/-- A flat 150-bar series: long enough to scan, too short for `ma200`. -/
def df150 : Df := ⟨["volume"], List.replicate 150 (10 : ℚ), List.replicate 150 (1 : ℚ)⟩

/-- A 200-bar series of negative closes rising into a tight dried-up
consolidation. -/
def dfNeg : Df :=
  ⟨["volume"], List.replicate 190 (-10 : ℚ) ++ List.replicate 10 (-1 : ℚ),
   List.replicate 190 (100 : ℚ) ++ List.replicate 10 (1 : ℚ)⟩

/-- A 120-bar series of all-zero closes. -/
def dfZero : Df := ⟨["volume"], List.replicate 120 (0 : ℚ), List.replicate 120 (1 : ℚ)⟩

/-- A strictly falling 20-bar series (closes 40 down to 21). -/
def df20 : Df :=
  ⟨["volume"], (List.range 20).map (fun i => (40 : ℚ) - i), List.replicate 20 (1 : ℚ)⟩

/-- Exactly three quarterly EPS rows, each of value 1. -/
def finRows3 : List FinRow :=
  [⟨"BasicEarningsPerShare", 1, 1⟩, ⟨"BasicEarningsPerShare", 2, 1⟩,
   ⟨"BasicEarningsPerShare", 3, 1⟩]

/-- Twenty-one volumes: twenty days at 2 then a current day of 6. -/
def vols21 : List ℚ := List.replicate 20 (2 : ℚ) ++ [6]

/-- A strictly increasing 12-bar close series. -/
def inc12 : List ℚ := (List.range 12).map (fun i => (i : ℚ))

/-! ### Helper lemmas -/

theorem ogt_none (x : Option ℚ) : ogt x none = false := by
  cases x <;> rfl

theorem dropLast_drop {α : Type} (l : List α) (k : Nat) :
    (l.drop k).dropLast = l.dropLast.drop k := by
  rw [List.dropLast_eq_take, List.dropLast_eq_take, List.drop_take, List.length_drop]
  congr 1
  omega

theorem lastN_of_length_le {α : Type} (w : Nat) (l : List α) (h : l.length ≤ w) :
    lastN w l = l := by
  unfold lastN
  rw [Nat.sub_eq_zero_of_le h, List.drop_zero]

theorem avgVol20_eq_specBase (vols : List ℚ) : avgVol20 vols = specBase vols := by
  unfold avgVol20 specBase lastN
  rw [dropLast_drop, List.length_dropLast]
  congr 2

theorem specBase_nonneg (vols : List ℚ) (hnn : ∀ v ∈ vols, 0 ≤ v) :
    0 ≤ specBase vols := by
  unfold specBase mean lastN
  apply div_nonneg
  · apply List.sum_nonneg
    intro x hx
    exact hnn x (((List.drop_sublist _ _).trans (List.dropLast_sublist vols)).mem hx)
  · exact Nat.cast_nonneg _

theorem sum_map_mul (k : ℚ) : ∀ l : List ℚ, (l.map (fun v => k * v)).sum = k * l.sum
  | [] => by simp
  | a :: t => by simp [sum_map_mul k t, mul_add]

theorem getLastD_map_mul (k : ℚ) : ∀ (l : List ℚ) (d : ℚ),
    (l.map (fun v => k * v)).getLastD (k * d) = k * l.getLastD d
  | [], _ => by simp
  | a :: t, d => by
    simp only [List.map_cons, List.getLastD_cons]
    exact getLastD_map_mul k t a

theorem lastN_map {α β : Type} (f : α → β) (w : Nat) (l : List α) :
    lastN w (l.map f) = (lastN w l).map f := by
  unfold lastN
  rw [List.length_map, List.map_drop]

theorem dropLast_map {α β : Type} (f : α → β) (l : List α) :
    (l.map f).dropLast = l.dropLast.map f := by
  rw [List.dropLast_eq_take, List.dropLast_eq_take, List.length_map, List.map_take]

theorem mean_map_mul (k : ℚ) (l : List ℚ) : mean (l.map (fun v => k * v)) = k * mean l := by
  unfold mean
  rw [sum_map_mul, List.length_map, mul_div_assoc]

theorem avgVol20_map_mul (k : ℚ) (vols : List ℚ) :
    avgVol20 (vols.map (fun v => k * v)) = k * avgVol20 vols := by
  unfold avgVol20
  rw [lastN_map, dropLast_map, mean_map_mul]

/-! ### Claim theorems -/

/-- C6: a series with fewer than 120 bars is skipped by the scan loop
before any strategy evaluation: the state is unchanged, so it neither
matches nor records anything (and, the embedding being total, cannot
crash). -/
theorem C6_short_series_skipped (mode : String) (p : Params) (st : ScanState)
    (sid : String) (df : Df) (findata : Except String (List FinRow))
    (h : df.closes.length < 120) :
    processTicker mode p st ⟨sid, Except.ok df, findata⟩ = st := by
  simp [processTicker, h]

/-- Witness for C6 at a concrete 50-bar series. -/
theorem C6_short_series_skipped_witness :
    dfShort.closes.length < 120 ∧
      processTicker vcpMode defaultParams ⟨[], []⟩ ⟨"2330", Except.ok dfShort, Except.error "x"⟩ =
        ⟨[], []⟩ := by
  have h := C6_short_series_skipped vcpMode defaultParams ⟨[], []⟩ "2330" dfShort
    (Except.error "x") (by decide)
  exact ⟨by decide, h⟩

/-- C10: with at least 120 but fewer than 200 bars the 200-bar rolling
mean is NaN (`none`), so both the contraction branch and the
bullish-stack branch evaluate to no-match. -/
theorem C10_no_ma200_no_match (p : Params) (df : Df)
    (h1 : 120 ≤ df.closes.length) (h2 : df.closes.length < 200) :
    vcpBranch p df = false ∧ maStackBranch df = false := by
  have hma : rollingLast 200 df.closes = none := if_pos h2
  constructor
  · simp [vcpBranch, hma, ogt_none]
  · simp [maStackBranch, hma, ogt_none]

/-- Witness for C10 at a concrete 150-bar series. -/
theorem C10_no_ma200_no_match_witness :
    (120 ≤ df150.closes.length ∧ df150.closes.length < 200) ∧
      vcpBranch defaultParams df150 = false ∧ maStackBranch df150 = false := by
  have h := C10_no_ma200_no_match defaultParams df150 (by decide) (by decide)
  exact ⟨by decide, h⟩

/-- C7 counterexample: a 200-bar series of negative closes whose
contraction-window minimum is not strictly positive, yet the contraction
branch matches — the amplitude is then non-positive and passes the
tightness test, contradicting the claim that a non-positive window
minimum always fails closed. -/
theorem C7_cex_negative_min_matches :
    listMin (lastN defaultParams.consolidation_days dfNeg.closes) ≤ 0 ∧
      vcpBranch defaultParams dfNeg = true := by decide

/-- C7 (amended): when the contraction-window minimum is exactly zero
the float amplitude is inf or NaN, every comparison with it is False,
and the branch reports no match (and, being total, raises nothing). -/
theorem C7_amended_zero_floor_fails_closed (p : Params) (df : Df)
    (h : listMin (lastN p.consolidation_days df.closes) = 0) :
    vcpBranch p df = false := by
  simp [vcpBranch, h]

/-- Witness for amended C7 at an all-zero-close 120-bar series. -/
theorem C7_amended_zero_floor_fails_closed_witness :
    listMin (lastN defaultParams.consolidation_days dfZero.closes) = 0 ∧
      vcpBranch defaultParams dfZero = false := by
  have h := C7_amended_zero_floor_fails_closed defaultParams dfZero (by decide)
  exact ⟨by decide, h⟩

/-- C4 counterexample: a ticker whose fetched series has fewer than 120
bars is skipped silently — the run ends with an empty debug log, so this
per-ticker failure is NOT recorded as a diagnostic entry keyed by the
ticker, contradicting the claim. -/
theorem C4_cex_silent_skip :
    dfShort.closes.length < 120 ∧
      scanRun vcpMode defaultParams [⟨"2330", Except.ok dfShort, Except.error "x"⟩] =
        ⟨[], []⟩ := by decide

/-- C4 (amended): a raised per-ticker fetch/evaluation error is caught
and recorded as `sid: msg`; an empty/short series and a missing volume
column are skipped silently with no diagnostic; in every case the loop
simply continues with the remaining tickers and the run never aborts. -/
theorem C4_amended_error_handling (mode : String) (p : Params) (st : ScanState)
    (sid e : String) (df : Df) (findata : Except String (List FinRow)) (ts : List Ticker) :
    processTicker mode p st ⟨sid, Except.error e, findata⟩ =
        ⟨st.hits, st.errors ++ [sid ++ ": " ++ e]⟩ ∧
    (df.closes.length < 120 → processTicker mode p st ⟨sid, Except.ok df, findata⟩ = st) ∧
    (120 ≤ df.closes.length → get_volume_column (df.cols.map String.toLower) = none →
      processTicker mode p st ⟨sid, Except.ok df, findata⟩ = st) ∧
    scanRun mode p (⟨sid, Except.error e, findata⟩ :: ts) =
      ts.foldl (processTicker mode p) ⟨[], [sid ++ ": " ++ e]⟩ := by
  refine ⟨rfl, fun h => by simp [processTicker, h], fun h1 h2 => ?_, rfl⟩
  have h3 : ¬ df.closes.length < 120 := Nat.not_lt.mpr h1
  simp [processTicker, h3, h2]

/-- Witness for amended C4 at concrete tickers. -/
theorem C4_amended_error_handling_witness :
    processTicker vcpMode defaultParams ⟨[], []⟩ ⟨"2330", Except.error "boom", Except.error "x"⟩ =
        ⟨[], ["2330: boom"]⟩ ∧
    processTicker vcpMode defaultParams ⟨[], []⟩ ⟨"2330", Except.ok dfShort, Except.error "x"⟩ =
        ⟨[], []⟩ ∧
    scanRun vcpMode defaultParams [⟨"2330", Except.error "boom", Except.error "x"⟩] =
        ⟨[], ["2330: boom"]⟩ := by
  have h := C4_amended_error_handling vcpMode defaultParams ⟨[], []⟩ "2330" "boom" dfShort
    (Except.error "x") []
  revert h
  decide

theorem finishSetup_spec (price : ℚ) (buy stp : Option ℚ) :
    (∀ b s, (finishSetup price buy stp).buy = some b →
        (finishSetup price buy stp).stop = some s →
      (0 < b - s → (finishSetup price buy stp).take_profit = b + 2 * (b - s) ∧
        (finishSetup price buy stp).rr = RRLabel.computed (b - s)) ∧
      (b - s ≤ 0 → (finishSetup price buy stp).take_profit = price * (11 / 10) ∧
        (finishSetup price buy stp).rr = RRLabel.na)) ∧
    ((finishSetup price buy stp).buy = none ∨ (finishSetup price buy stp).stop = none →
      (finishSetup price buy stp).take_profit = price * (11 / 10) ∧
        (finishSetup price buy stp).rr = RRLabel.na) := by
  rcases buy with _ | b0 <;> rcases stp with _ | s0
  · simp [finishSetup]
  · simp [finishSetup]
  · simp [finishSetup]
  · by_cases hr : 0 < b0 - s0
    · refine ⟨fun b s hb hs => ?_, fun hcon => ?_⟩
      · rw [finishSetup, if_pos hr] at hb hs ⊢
        cases Option.some.inj hb
        cases Option.some.inj hs
        exact ⟨fun _ => ⟨by ring, rfl⟩, fun hle => absurd hr (not_lt.mpr hle)⟩
      · rw [finishSetup, if_pos hr] at hcon
        rcases hcon with hcon | hcon <;> exact absurd hcon (by simp)
    · refine ⟨fun b s hb hs => ?_, fun hcon => ?_⟩
      · rw [finishSetup, if_neg hr] at hb hs ⊢
        cases Option.some.inj hb
        cases Option.some.inj hs
        exact ⟨fun hpos => absurd hpos hr, fun _ => ⟨rfl, rfl⟩⟩
      · rw [finishSetup, if_neg hr] at hcon
        rcases hcon with hcon | hcon <;> exact absurd hcon (by simp)

/-- C2 counterexample: in the four-line alignment mode on a falling
20-bar series, buy = ma5 = 23, stop = ma20 × 0.98 = 29.89, so
buy − stop ≤ 0; the fallback target is current close × 1.1 = 23.1, NOT
buy × 1.1 = 25.3 — refuting the claim that the fallback target equals
buy × 1.10 in the modes where buy is ma5 rather than the close. -/
theorem C2_cex_fallback_uses_close :
    (calculate_trade_setup fourLineMode df20).buy = some 23 ∧
    (calculate_trade_setup fourLineMode df20).stop = some (2989 / 100) ∧
    (23 : ℚ) - 2989 / 100 ≤ 0 ∧
    df20.closes.getLastD 0 = 21 ∧
    (calculate_trade_setup fourLineMode df20).take_profit ≠ 23 * (11 / 10) := by decide

/-- C2 (amended): whenever buy − stop > 0 the target is
buy + 2 × (buy − stop) with a computed reward/risk label; whenever
buy − stop ≤ 0 (or is NaN) the target falls back to the CURRENT CLOSE
× 1.10 — not buy × 1.10 — and the label is N/A.  Holds for every mode
string and every nonempty series. -/
theorem C2_amended_trade_plan (mode : String) (df : Df) (hne : df.closes ≠ []) :
    (∀ b s, (calculate_trade_setup mode df).buy = some b →
        (calculate_trade_setup mode df).stop = some s →
      (0 < b - s → (calculate_trade_setup mode df).take_profit = b + 2 * (b - s) ∧
        (calculate_trade_setup mode df).rr = RRLabel.computed (b - s)) ∧
      (b - s ≤ 0 → (calculate_trade_setup mode df).take_profit =
          df.closes.getLastD 0 * (11 / 10) ∧
        (calculate_trade_setup mode df).rr = RRLabel.na)) ∧
    ((calculate_trade_setup mode df).buy = none ∨
        (calculate_trade_setup mode df).stop = none →
      (calculate_trade_setup mode df).take_profit = df.closes.getLastD 0 * (11 / 10) ∧
        (calculate_trade_setup mode df).rr = RRLabel.na) := by
  have hsplit : ∃ bs : Option ℚ × Option ℚ,
      calculate_trade_setup mode df = finishSetup (df.closes.getLastD 0) bs.1 bs.2 := by
    simp only [calculate_trade_setup]
    split_ifs <;> exact ⟨⟨_, _⟩, rfl⟩
  obtain ⟨⟨bb, ss⟩, hs⟩ := hsplit
  rw [hs]
  exact finishSetup_spec _ _ _

/-- Witness for amended C2: the four-line mode on the falling series has
buy − stop ≤ 0, and the theorem yields the close × 1.1 fallback. -/
theorem C2_amended_trade_plan_witness :
    (calculate_trade_setup fourLineMode df20).take_profit =
        df20.closes.getLastD 0 * (11 / 10) ∧
      (calculate_trade_setup fourLineMode df20).rr = RRLabel.na := by
  have h := ((C2_amended_trade_plan fourLineMode df20 (by decide)).1 23 (2989 / 100)
    (by decide) (by decide)).2 (by decide)
  exact h

/-- C3 counterexample: with only three available quarterly EPS rows the
valuation screen still matches (sum 3 > 0 and 10 / 3 < 20), refuting
the claim that fewer than four quarters always yields no match. -/
theorem C3_cex_three_quarters_match :
    (finRows3.filter (fun r => strContains r.ftype "BasicEarningsPerShare")).length = 3 ∧
      valuationBranch 20 10 (Except.ok finRows3) = true := by decide

/-- C3 (amended): with at most four available EPS quarters the screen
sums ALL of them and matches exactly when that sum is positive and
price / sum < pe_limit; a fundamentals fetch failure yields no match
rather than an error (the embedding is total, so nothing is raised). -/
theorem C3_amended_valuation (pe price : ℚ) (rows : List FinRow) (e : String)
    (h : (rows.filter (fun r => strContains r.ftype "BasicEarningsPerShare")).length ≤ 4) :
    (valuationBranch pe price (Except.ok rows) = true ↔
      0 < epsAvailableSum rows ∧ price / epsAvailableSum rows < pe) ∧
    valuationBranch pe price (Except.error e) = false := by
  have hrows : epsRows rows =
      List.insertionSort (fun a b => a.fdate ≤ b.fdate)
        (rows.filter (fun r => strContains r.ftype "BasicEarningsPerShare")) := by
    apply lastN_of_length_le
    rw [List.length_insertionSort]
    exact h
  have hsum : ((epsRows rows).map FinRow.value).sum = epsAvailableSum rows := by
    rw [hrows]
    exact ((List.perm_insertionSort _ _).map FinRow.value).sum_eq
  constructor
  · rw [valuationBranch]
    rw [hsum]
    by_cases hpos : 0 < epsAvailableSum rows
    · rw [if_pos hpos]
      simp [hpos]
    · rw [if_neg hpos]
      simp [hpos]
  · rfl

/-- Witness for amended C3 at the three-quarter table. -/
theorem C3_amended_valuation_witness :
    (valuationBranch 20 10 (Except.ok finRows3) = true ↔
      0 < epsAvailableSum finRows3 ∧ 10 / epsAvailableSum finRows3 < 20) ∧
    valuationBranch 20 10 (Except.error "down") = false := by
  have h := C3_amended_valuation 20 10 finRows3 "down" (by decide)
  exact h

/-- C5: for a series with at least 21 bars of non-negative volumes the
volume ratio is the current volume divided by the mean of the 20 days
ending the day before the current one, and it is 0 — not infinity or
NaN, which a total ℚ function cannot produce — when that baseline is 0. -/
theorem C5_vol_ratio_window (vols : List ℚ) (h21 : 21 ≤ vols.length)
    (hnn : ∀ v ∈ vols, 0 ≤ v) :
    volRel vols = if specBase vols = 0 then 0 else vols.getLastD 0 / specBase vols := by
  have hb := specBase_nonneg vols hnn
  unfold volRel
  rw [avgVol20_eq_specBase]
  by_cases hz : specBase vols = 0
  · rw [if_pos hz, if_neg (by rw [hz]; exact lt_irrefl 0)]
  · rw [if_neg hz, if_pos (lt_of_le_of_ne hb (Ne.symm hz))]

/-- Witness for C5 at a 21-bar volume series (baseline 2, current 6). -/
theorem C5_vol_ratio_window_witness :
    volRel vols21 = if specBase vols21 = 0 then 0 else vols21.getLastD 0 / specBase vols21 := by
  exact C5_vol_ratio_window vols21 (by decide) (by decide)

/-- C8: multiplying every volume by a positive constant k leaves the
volume ratio unchanged, including the zero-baseline case where both
sides are 0. -/
theorem C8_vol_ratio_scale_invariant (vols : List ℚ) (k : ℚ) (hk : 0 < k) :
    volRel (vols.map (fun v => k * v)) = volRel vols := by
  unfold volRel
  rw [avgVol20_map_mul]
  have hlast : (vols.map (fun v => k * v)).getLastD 0 = k * vols.getLastD 0 := by
    have h := getLastD_map_mul k vols 0
    rwa [mul_zero] at h
  by_cases h0 : 0 < avgVol20 vols
  · rw [if_pos (mul_pos hk h0), if_pos h0, hlast,
      mul_div_mul_left _ _ (ne_of_gt hk)]
  · have havg : avgVol20 vols ≤ 0 := le_of_not_lt h0
    have hneg : ¬ 0 < k * avgVol20 vols := not_lt.mpr (by nlinarith)
    rw [if_neg hneg, if_neg h0]

/-- Witness for C8 at k = 3 on the 21-bar volume series. -/
theorem C8_vol_ratio_scale_invariant_witness :
    volRel (vols21.map (fun v => 3 * v)) = volRel vols21 := by
  exact C8_vol_ratio_scale_invariant vols21 3 (by decide)

/-- C9: on a strictly increasing close series the order-5 extrema
detector returns no local maxima and no local minima: already at shift
1 every candidate fails the strict comparison against a clipped
neighbour (at the ends the clipped comparison is against itself). -/
theorem C9_monotone_no_extrema (p : List ℚ)
    (hmono : ∀ i, i + 1 < p.length → p.getD i 0 < p.getD (i + 1) 0) :
    find_vcp_points p = ([], []) := by
  unfold find_vcp_points
  have hmax : relExtrema (fun a b => decide (b < a)) 5 p = [] := by
    unfold relExtrema
    rw [List.filter_eq_nil_iff]
    intro i hi
    rw [List.mem_range] at hi
    intro hall
    rw [List.all_eq_true] at hall
    have h0 := hall 0 (by simp)
    simp only [Nat.zero_add, Bool.and_eq_true, decide_eq_true_iff] at h0
    obtain ⟨h1, _⟩ := h0
    by_cases hb : i + 1 < p.length
    · rw [Nat.min_eq_left (by omega)] at h1
      exact absurd h1 (not_lt.mpr (hmono i hb).le)
    · rw [Nat.min_eq_right (by omega), show p.length - 1 = i from by omega] at h1
      exact absurd h1 (lt_irrefl _)
  have hmin : relExtrema (fun a b => decide (a < b)) 5 p = [] := by
    unfold relExtrema
    rw [List.filter_eq_nil_iff]
    intro i hi
    rw [List.mem_range] at hi
    intro hall
    rw [List.all_eq_true] at hall
    have h0 := hall 0 (by simp)
    simp only [Nat.zero_add, Bool.and_eq_true, decide_eq_true_iff] at h0
    obtain ⟨_, h2⟩ := h0
    by_cases hz : i = 0
    · rw [hz] at h2
      exact absurd h2 (lt_irrefl _)
    · have hm := hmono (i - 1) (by omega)
      rw [show i - 1 + 1 = i from by omega] at hm
      exact absurd h2 (not_lt.mpr hm.le)
  rw [hmax, hmin]

/-- Witness for C9 at the increasing 12-bar series. -/
theorem C9_monotone_no_extrema_witness : find_vcp_points inc12 = ([], []) := by
  refine C9_monotone_no_extrema inc12 (fun i hi => ?_)
  have hlen : inc12.length = 12 := by decide
  rw [hlen] at hi
  have hub : i ≤ 10 := by omega
  interval_cases i <;> decide

/-- C1: with the contraction-window minimum positive (so the amplitude
is defined), the VCP branch matches the series exactly when the close
exceeds the (defined) 200-bar mean, the window amplitude is at most the
tightness bound, and the volume dry-up disjunction holds: window mean
volume below the trailing 60-bar mean volume OR current volume below
the 20-day baseline. -/
theorem C1_vcp_match_iff (p : Params) (df : Df)
    (hlen : 120 ≤ df.closes.length)
    (hmin : 0 < listMin (lastN p.consolidation_days df.closes)) :
    vcpBranch p df = true ↔ specVcpCond p df := by
  have hne : listMin (lastN p.consolidation_days df.closes) ≠ 0 := hmin.ne'
  by_cases h200 : df.closes.length < 200
  · have hma : rollingLast 200 df.closes = none := if_pos h200
    simp only [vcpBranch, specVcpCond, hma, ogt_none, Bool.false_and]
    constructor
    · intro hfalse
      exact absurd hfalse (by simp)
    · rintro ⟨⟨hge, _⟩, _⟩
      omega
  · have hma : rollingLast 200 df.closes = some (mean (lastN 200 df.closes)) := if_neg h200
    simp only [vcpBranch, specVcpCond, hma, ogt, hne, if_false, Bool.and_eq_true,
      Bool.or_eq_true, decide_eq_true_iff]
    constructor
    · rintro ⟨⟨hgt, hamp⟩, hdry⟩
      exact ⟨⟨by omega, hgt⟩, hamp, hdry⟩
    · rintro ⟨⟨_, hgt⟩, hamp, hdry⟩
      exact ⟨⟨hgt, hamp⟩, hdry⟩

/-- Witness for C1 at the flat 150-bar series (window minimum 10 > 0). -/
theorem C1_vcp_match_iff_witness :
    (120 ≤ df150.closes.length ∧
        0 < listMin (lastN defaultParams.consolidation_days df150.closes)) ∧
      (vcpBranch defaultParams df150 = true ↔ specVcpCond defaultParams df150) := by
  exact ⟨⟨by decide, by decide⟩,
    C1_vcp_match_iff defaultParams df150 (by decide) (by decide)⟩

end StockApp
